import Mathlib

/-!
Shallow embedding of the synchronization primitives of this repository:
the oneshot channel (src/sync/oneshot.rs), the slot channel
(src/unsync/slot.rs), and the spawn adapter built on the oneshot.

Modelling conventions:
* A task handle is an identifier (`TaskId := Nat`); waking a task is
  recorded by returning the woken task from the operation.
* Each Rust `Lock<Option<_>>` cell is a pair of a `Locked : Bool` flag and
  its contents; `try_lock` fails exactly when the flag is set.  In a
  sequential execution no lock is ever held across an operation boundary
  (every guard in the source is dropped before the function returns), so
  the flags are plain state components that concurrent interference may
  set; the interleaved machine at the end models that interference.
* A Rust panic (a failed `unwrap`/`assert!`) is modelled by the operation
  returning `none`.
* `Poll<T, E>` = `Result<Async<T>, E>` is modelled as `Except E (Async T)`.
-/

namespace FuturesSpec

abbrev TaskId := Nat

/-- Rust `Async<T>`: either a finished value or "not ready yet". -/
inductive Async (α : Type) where
  | ready : α → Async α
  | notReady : Async α
deriving Repr, DecidableEq

/-- Rust `Async::is_ready`. -/
def Async.isReady : Async α → Bool
  | .ready _ => true
  | .notReady => false

/-- Error returned from a oneshot `Receiver` when the `Sender` is dropped
without sending (src/sync/oneshot.rs, struct `Canceled`). -/
inductive Canceled where
  | canceled
deriving Repr, DecidableEq

namespace Oneshot

/-- State of `Inner<T>` in src/sync/oneshot.rs: the `complete` atomic
flag, and the three `Lock`-protected cells `data`, `rx_task`, `tx_task`,
each modelled as a lock flag plus contents. -/
structure Inner (T : Type) where
  complete : Bool
  dataLocked : Bool
  data : Option T
  rxTaskLocked : Bool
  rxTask : Option TaskId
  txTaskLocked : Bool
  txTask : Option TaskId
deriving Repr, DecidableEq

/-- `Inner::new`: fresh state, everything empty and unlocked. -/
def Inner.new : Inner T :=
  { complete := false, dataLocked := false, data := none
    rxTaskLocked := false, rxTask := none
    txTaskLocked := false, txTask := none }

/-- `Inner::send` (src/sync/oneshot.rs lines 118-131).  Returns the value
back (`Err t`) when `complete` is already set; otherwise `try_lock`s the
`data` cell (`unwrap` panics if locked, modelled as `none`), asserts the
slot is empty (panic otherwise), and stores the value.  Nothing else in
the state is touched and no task is woken. -/
def Inner.send (s : Inner T) (t : T) : Option (Except T Unit × Inner T) :=
  if s.complete then some (.error t, s)
  else if s.dataLocked then none
  else if s.data.isSome then none
  else some (.ok (), { s with data := some t })

/-- `Inner::poll_cancel` (lines 133-165): ready if `complete` is set or
the `tx_task` lock is unavailable; otherwise parks the current task in
`tx_task` and re-checks `complete` before returning not-ready. -/
def Inner.pollCancel (s : Inner T) (cur : TaskId) : Async Unit × Inner T :=
  if s.complete then (.ready (), s)
  else if s.txTaskLocked then (.ready (), s)
  else
    let s1 : Inner T := { s with txTask := some cur }
    if s1.complete then (.ready (), s1) else (.notReady, s1)

/-- `Inner::is_canceled`: non-blocking read of the `complete` flag. -/
def Inner.isCanceled (s : Inner T) : Bool :=
  s.complete

/-- `Inner::drop_tx` (lines 171-199): set `complete`, then try to take and
wake a task parked in `rx_task`; a failed `try_lock` is ignored.  The
second component is the task woken, if any. -/
def Inner.dropTx (s : Inner T) : Inner T × Option TaskId :=
  let s1 : Inner T := { s with complete := true }
  if s1.rxTaskLocked then (s1, none)
  else
    match s1.rxTask with
    | some t => ({ s1 with rxTask := none }, some t)
    | none => (s1, none)

/-- `Inner::close_rx` (lines 201-211): set `complete`, then try to take
and wake a task parked in `tx_task`. -/
def Inner.closeRx (s : Inner T) : Inner T × Option TaskId :=
  let s1 : Inner T := { s with complete := true }
  if s1.txTaskLocked then (s1, none)
  else
    match s1.txTask with
    | some t => ({ s1 with txTask := none }, some t)
    | none => (s1, none)

/-- The common "done" tail of `Inner::recv`: `data.try_lock().unwrap().take()`
with a present value yielding `Ready` and an absent one yielding
`Canceled` (caller has already checked `dataLocked`). -/
def donePayload (s : Inner T) : Except Canceled (Async T) × Inner T :=
  match s.data with
  | some d => (.ok (.ready d), { s with data := none })
  | none => (.error .canceled, { s with data := none })

/-- `Inner::recv` (lines 213-249).  First phase: `done := true` if
`complete` is set, or if the `rx_task` try-lock fails; otherwise the
current task is stored in `rx_task`.  Second phase: if done, or if
`complete` is observed on re-check, take the payload (`unwrap` panic on a
locked `data` cell is modelled as `none`); otherwise not-ready. -/
def Inner.recv (s : Inner T) (cur : TaskId) :
    Option (Except Canceled (Async T) × Inner T) :=
  let p : Bool × Inner T :=
    if s.complete then (true, s)
    else if s.rxTaskLocked then (true, s)
    else (false, { s with rxTask := some cur })
  let done := p.1
  let s1 := p.2
  if done || s1.complete then
    if s1.dataLocked then none
    else some (donePayload s1)
  else
    some (.ok .notReady, s1)

/-- `Inner::drop_rx` (lines 251-279): set `complete`; drain (without
waking) any task parked in `rx_task`; take and wake any task parked in
`tx_task`.  Failed try-locks are ignored. -/
def Inner.dropRx (s : Inner T) : Inner T × Option TaskId :=
  let s1 : Inner T := { s with complete := true }
  let s2 : Inner T := if s1.rxTaskLocked then s1 else { s1 with rxTask := none }
  if s2.txTaskLocked then (s2, none)
  else
    match s2.txTask with
    | some t => ({ s2 with txTask := none }, some t)
    | none => (s2, none)

end Oneshot

namespace Slot

/-- Error type of `Sender::swap` (src/unsync/slot.rs, `SendError<T>`):
keeps ownership of the value that could not be sent. -/
structure SendError (T : Type) where
  val : T
deriving Repr, DecidableEq

/-- `Inner<T>` of src/unsync/slot.rs: the current value and the parked
consumer task behind the `RefCell`. -/
structure Inner (T : Type) where
  value : Option T
  task : Option TaskId
deriving Repr, DecidableEq

/-- The shared world of one slot channel: the `RefCell` contents, the
number of sender handles whose weak reference still points at the shared
allocation (`Rc::weak_count` as read by the receiver), and whether the
receiver (the only strong reference) is still alive.  An individual
sender handle is represented by a `Bool` that is `true` while its weak
reference still points at the allocation (it becomes `false`, a dangling
`Weak::new()`, after `close`). -/
structure World (T : Type) where
  inner : Inner T
  weakCount : Nat
  rxAlive : Bool
deriving Repr, DecidableEq

/-- `channel()` (src/unsync/slot.rs lines 157-164): fresh world with no
value and no parked task, one live sender weak reference, receiver
alive.  Returns the world paired with the sender's liveness flag. -/
def channel (T : Type) : World T × Bool :=
  ({ inner := { value := none, task := none }, weakCount := 1, rxAlive := true }, true)

/-- `Sender::swap` (lines 60-78): if the weak reference upgrades (sender
weak still points at the allocation and the receiver is alive), replace
`value`, take the parked task, wake it, and return the previous value;
otherwise fail, handing the value back in `SendError`.  The third
component is the task woken, if any. -/
def Sender.swap (w : World T) (sLive : Bool) (v : T) :
    Except (SendError T) (Option T) × World T × Option TaskId :=
  if sLive && w.rxAlive then
    (.ok w.inner.value,
      { w with inner := { value := some v, task := none } },
      w.inner.task)
  else
    (.error ⟨v⟩, w, none)

/-- `Sender::close` (lines 91-103): take the parked task if the weak
reference upgrades, replace this sender's weak reference by a dangling
one (dropping it from the allocation's weak count), and wake the taken
task.  Returns the world, the sender's new liveness flag (always
`false`), and the woken task. -/
def Sender.close (w : World T) (sLive : Bool) : World T × Bool × Option TaskId :=
  let t := if sLive && w.rxAlive then w.inner.task else none
  let w1 : World T :=
    if sLive && w.rxAlive then { w with inner := { w.inner with task := none } } else w
  let w2 : World T :=
    if sLive then { w1 with weakCount := w1.weakCount - 1 } else w1
  (w2, false, t)

/-- `Drop for Sender` (lines 106-110): just `close`, result ignored. -/
def Sender.drop (w : World T) (sLive : Bool) : World T × Bool × Option TaskId :=
  Sender.close w sLive

/-- `Stream for Receiver`, `poll` (lines 115-132): with no value present,
terminate with `Ready None` when the weak count is zero, else park the
current task; then `value.take()` yields either `Ready (Some v)` or
`NotReady`. -/
def Receiver.poll (w : World T) (cur : TaskId) : Async (Option T) × World T :=
  if w.inner.value.isNone then
    if w.weakCount = 0 then (.ready none, w)
    else (.notReady, { w with inner := { value := none, task := some cur } })
  else
    (.ready w.inner.value, { w with inner := { w.inner with value := none } })

end Slot

namespace Spawn

open Oneshot

/-- `ExecuteInner<T>` (src/sync/oneshot.rs lines 414-417): the oneshot
`Inner` plus the `keep_running` atomic flag. -/
structure ExecuteInner (T : Type) where
  inner : Oneshot.Inner T
  keep_running : Bool
deriving Repr, DecidableEq

/-- The shared state built by `spawn` (lines 455-458): fresh oneshot
state, `keep_running` initialized to `true`. -/
def spawnInit (T : Type) : ExecuteInner T :=
  { inner := Oneshot.Inner.new, keep_running := true }

/-- `SpawnHandle::forget` (lines 485-487): store `false` into
`keep_running`, consuming the handle. -/
def SpawnHandle.forget (s : ExecuteInner T) : ExecuteInner T :=
  { s with keep_running := false }

/-- `Drop for SpawnHandle` (lines 511-515): `drop_rx` on the inner
oneshot state.  Second component is the task woken, if any. -/
def SpawnHandle.drop (s : ExecuteInner T) : ExecuteInner T × Option TaskId :=
  let r := Oneshot.Inner.dropRx s.inner
  ({ s with inner := r.1 }, r.2)

/-- `Future for SpawnHandle`, `poll` (lines 494-501): delegate to
`Inner::recv`; `Ready(Ok t)` resolves to `t`, `Ready(Err e)` surfaces
`e`, `NotReady` passes through, and the `Canceled` error panics
(`none`).  A panic inside `recv` itself is also `none`. -/
def SpawnHandle.poll (s : ExecuteInner (Except ε α)) (cur : TaskId) :
    Option (Except ε (Async α) × ExecuteInner (Except ε α)) :=
  match Oneshot.Inner.recv s.inner cur with
  | some (.ok (.ready (.ok t)), i) => some (.ok (.ready t), { s with inner := i })
  | some (.ok (.ready (.error e)), i) => some (.error e, { s with inner := i })
  | some (.ok .notReady, i) => some (.ok .notReady, { s with inner := i })
  | some (.error _, _) => none
  | none => none

/-- The wrapped computation of an `Execute<F>` adapter: a deterministic
poll step over an explicit state `σ`, returning Rust
`Poll<ι, ε> = Result<Async<ι>, ε>`. -/
structure FutureM (σ ι ε : Type) where
  poll : σ → Except ε (Async ι) × σ

/-- Result of one `Execute::poll` turn: the adapter's own poll result,
the wrapped computation's state, the shared state, and whether the
wrapped computation was polled on this turn. -/
structure ExecuteOut (σ ι ε : Type) where
  result : Async Unit
  fstate : σ
  tx : ExecuteInner (Except ε ι)
  futurePolled : Bool
deriving Repr

/-- `Future for Execute<F>`, `poll` (src/sync/oneshot.rs lines 517-539):
first `poll_cancel` on the shared oneshot state; if it is ready and
`keep_running` is `false`, return `Ready` at once without touching the
wrapped computation.  Otherwise poll the wrapped computation: not-ready
passes through; a final value or error is sent through the shared state
(the send result is dropped) and the adapter finishes. -/
def Execute.poll (fm : FutureM σ ι ε) (fstate : σ)
    (tx : ExecuteInner (Except ε ι)) (cur : TaskId) :
    Option (ExecuteOut σ ι ε) :=
  let pc := Oneshot.Inner.pollCancel tx.inner cur
  let tx1 : ExecuteInner (Except ε ι) := { tx with inner := pc.2 }
  if pc.1.isReady && !tx1.keep_running then
    some { result := .ready (), fstate := fstate, tx := tx1, futurePolled := false }
  else
    match fm.poll fstate with
    | (.ok .notReady, f1) =>
      some { result := .notReady, fstate := f1, tx := tx1, futurePolled := true }
    | (.ok (.ready t), f1) =>
      match Oneshot.Inner.send tx1.inner (.ok t) with
      | none => none
      | some (_, i) =>
        some { result := .ready (), fstate := f1
               tx := { tx1 with inner := i }, futurePolled := true }
    | (.error e, f1) =>
      match Oneshot.Inner.send tx1.inner (.error e) with
      | none => none
      | some (_, i) =>
        some { result := .ready (), fstate := f1
               tx := { tx1 with inner := i }, futurePolled := true }

/-- `Drop for Execute` (lines 549-553): `drop_tx` on the shared state. -/
def Execute.drop (tx : ExecuteInner T) : ExecuteInner T × Option TaskId :=
  let r := Oneshot.Inner.dropTx tx.inner
  ({ tx with inner := r.1 }, r.2)

/-- A concrete wrapped computation used to observe the adapter's
behavior: polling it always finishes with the current counter value and
increments the counter. -/
def countingFuture : FutureM Nat Nat Unit :=
  { poll := fun n => (.ok (.ready n), n + 1) }

/-- Shared state after `spawn`, then `forget()`, then dropping the
handle: `complete` is set, `keep_running` is `false`. -/
def forgottenDroppedTx : ExecuteInner (Except Unit Nat) :=
  (SpawnHandle.drop (SpawnHandle.forget (spawnInit (Except Unit Nat)))).1

/-- Shared state after `spawn` and dropping the handle without
`forget()`: `complete` is set, `keep_running` is still `true`. -/
def keptDroppedTx : ExecuteInner (Except Unit Nat) :=
  (SpawnHandle.drop (spawnInit (Except Unit Nat))).1

end Spawn

namespace Race

/-!
Interleaved execution of one consumer `Inner::recv` against one producer
`Inner::drop_tx`, at the granularity of the individual `SeqCst` atomic
operations of src/sync/oneshot.rs (one load or store of `complete`, one
try-lock acquisition, one critical section under the `rx_task` lock).
Sequential consistency makes every execution an interleaving of these
atomic steps, which is exactly what this machine enumerates.  Only the
wake-delivery state is tracked; the `data` cell plays no part in the
wakeup protocol (`drop_tx` never touches it).
-/

/-- Global state of the two-thread execution: the shared `complete` flag,
the `rx_task` lock flag and whether the consumer's task is stored in it,
whether the consumer's task has been woken, and each thread's program
counter plus the consumer's local `done` flag and final poll result
(`some true` = returned via the done path, `some false` = returned
`NotReady`). -/
structure CState where
  complete : Bool
  rxLocked : Bool
  rxTask : Bool
  notified : Bool
  cpc : Nat
  cdone : Bool
  cres : Option Bool
  ppc : Nat
deriving Repr, DecidableEq

/-- One atomic step of the consumer running `Inner::recv` (lines
213-249): 0 = load `complete` (done if set); 1 = try-lock `rx_task`
(failure means done); 2 = store the task and release the lock; 3 = if
not done, re-load `complete`; return done or `NotReady`. -/
def consumerStep (s : CState) : CState :=
  match s.cpc with
  | 0 => if s.complete then { s with cdone := true, cpc := 3 } else { s with cpc := 1 }
  | 1 => if s.rxLocked then { s with cdone := true, cpc := 3 }
         else { s with rxLocked := true, cpc := 2 }
  | 2 => { s with rxTask := true, rxLocked := false, cpc := 3 }
  | 3 => if s.cdone then { s with cres := some true, cpc := 4 }
         else if s.complete then { s with cres := some true, cpc := 4 }
         else { s with cres := some false, cpc := 4 }
  | _ => s

/-- One atomic step of the producer running `Inner::drop_tx` (lines
171-199): 0 = store `complete := true`; 1 = try-lock `rx_task` (failure
means finish without waking); 2 = take the stored task, release the
lock, and wake the task if one was there. -/
def producerStep (s : CState) : CState :=
  match s.ppc with
  | 0 => { s with complete := true, ppc := 1 }
  | 1 => if s.rxLocked then { s with ppc := 3 }
         else { s with rxLocked := true, ppc := 2 }
  | 2 => if s.rxTask then { s with rxTask := false, rxLocked := false, notified := true, ppc := 3 }
         else { s with rxLocked := false, ppc := 3 }
  | _ => s

/-- Whether the consumer has returned from `recv`. -/
def cFinished (s : CState) : Bool := decide (4 ≤ s.cpc)

/-- Whether the producer has returned from `drop_tx`. -/
def pFinished (s : CState) : Bool := decide (3 ≤ s.ppc)

/-- One scheduler choice: `true` steps the producer, `false` the
consumer; a finished side yields to the other. -/
def step (s : CState) (b : Bool) : CState :=
  if b then (if pFinished s then consumerStep s else producerStep s)
  else (if cFinished s then producerStep s else consumerStep s)

/-- Run the machine under a schedule. -/
def run (s : CState) : List Bool → CState
  | [] => s
  | b :: bs => run (step s b) bs

/-- Initial state: `complete` not yet set, lock free, consumer's wake not
delivered; `t0` says whether a previous poll left the consumer's task
already registered in `rx_task`. -/
def raceInit (t0 : Bool) : CState :=
  { complete := false, rxLocked := false, rxTask := t0, notified := false
    cpc := 0, cdone := false, cres := none, ppc := 0 }

end Race

namespace Oneshot

/-- State of the oneshot after a successful `send v` on a fresh channel:
only the payload slot holds the value. -/
def afterSend (v : T) : Inner T :=
  { (Inner.new : Inner T) with data := some v }

end Oneshot

namespace Slot

/-- Slot world after a `swap x` on the fresh channel: only the current
value holds `x`; one live sender, receiver alive. -/
def afterSwap (x : T) : World T :=
  { inner := { value := some x, task := none }, weakCount := 1, rxAlive := true }

end Slot

/-! Theorems.  Each claim of the specification gets exactly one theorem
below; shared helper lemmas come first. -/

/-- Helper: `drop_rx` always leaves the `complete` flag set. -/
theorem dropRx_sets_complete {T : Type} (s : Oneshot.Inner T) :
    ((Oneshot.Inner.dropRx s).1).complete = true := by
  obtain ⟨c, dl, d, rl, rt, tl, tt⟩ := s
  cases rl <;> cases tl <;> cases tt <;> simp [Oneshot.Inner.dropRx]

/-- Helper: `close_rx` always leaves the `complete` flag set. -/
theorem closeRx_sets_complete {T : Type} (s : Oneshot.Inner T) :
    ((Oneshot.Inner.closeRx s).1).complete = true := by
  obtain ⟨c, dl, d, rl, rt, tl, tt⟩ := s
  cases tl <;> cases tt <;> simp [Oneshot.Inner.closeRx]

/-- Claim C2: `Inner::recv` with the `complete` flag already true
proceeds straight to reading the payload; otherwise a failed deposit into
`rx_task` (lock unavailable) is treated as done, and a successful deposit
returns not-ready after re-checking the flag (unchanged in an
uninterfered execution); and the done path yields `Ready v` when the
payload holds `v` and the `Canceled` error when it is empty. -/
theorem recv_deposit_and_done_payload {T : Type} (s : Oneshot.Inner T)
    (cur : TaskId) (hd : s.dataLocked = false) :
    (s.complete = true → Oneshot.Inner.recv s cur = some (Oneshot.donePayload s)) ∧
    (s.complete = false → s.rxTaskLocked = true →
      Oneshot.Inner.recv s cur = some (Oneshot.donePayload s)) ∧
    (s.complete = false → s.rxTaskLocked = false →
      Oneshot.Inner.recv s cur = some (.ok .notReady, { s with rxTask := some cur })) ∧
    (∀ d, s.data = some d → (Oneshot.donePayload s).1 = .ok (.ready d)) ∧
    (s.data = none → (Oneshot.donePayload s).1 = .error .canceled) := by
  obtain ⟨c, dl, d, rl, rt, tl, tt⟩ := s
  simp only at hd
  subst hd
  cases c <;> cases rl <;> cases d <;>
    simp [Oneshot.Inner.recv, Oneshot.donePayload]

/-- Witness for C2: a completed channel holding `7` is received as
`Ready 7`. -/
theorem recv_deposit_and_done_payload_witness :
    Oneshot.Inner.recv
      { complete := true, dataLocked := false, data := some 7
        rxTaskLocked := false, rxTask := none, txTaskLocked := false
        txTask := none : Oneshot.Inner Nat } 0
      = some (.ok (.ready 7),
        { complete := true, dataLocked := false, data := none
          rxTaskLocked := false, rxTask := none, txTaskLocked := false
          txTask := none }) :=
  (recv_deposit_and_done_payload _ 0 rfl).1 rfl

/-- Claim C3: a `send v` finding the `complete` flag already set — in
particular after the consumer was dropped (`drop_rx`) or closed
(`close_rx`), both of which set the flag — returns `Err` carrying exactly
`v` and leaves the state (payload slot and both wait slots) unchanged. -/
theorem send_after_complete_returns_value_unchanged {T : Type}
    (s s2 : Oneshot.Inner T) (v : T) (h : s.complete = true) :
    Oneshot.Inner.send s v = some (.error v, s) ∧
    ((Oneshot.Inner.dropRx s2).1).complete = true ∧
    ((Oneshot.Inner.closeRx s2).1).complete = true := by
  refine ⟨?_, dropRx_sets_complete s2, closeRx_sets_complete s2⟩
  simp [Oneshot.Inner.send, h]

/-- Witness for C3: sending `5` into a channel whose consumer is gone
returns `5` unchanged with the state untouched. -/
theorem send_after_complete_witness :
    Oneshot.Inner.send
      { complete := true, dataLocked := false, data := none
        rxTaskLocked := false, rxTask := none, txTaskLocked := false
        txTask := none : Oneshot.Inner Nat } 5
      = some (.error 5,
        { complete := true, dataLocked := false, data := none
          rxTaskLocked := false, rxTask := none, txTaskLocked := false
          txTask := none }) :=
  (send_after_complete_returns_value_unchanged _ Oneshot.Inner.new 5 rfl).1

/-- Claim C4: a successful `send v` writes only the payload slot (frame:
every other field, including `complete` and both wait slots, is
unchanged, and no task is woken); a consumer poll after the send but
before the producer drop returns not-ready, and after `drop_tx` (which
wakes the parked consumer) a poll returns `Ready v`. -/
theorem send_frame_then_poll_scenario {T : Type} (s : Oneshot.Inner T)
    (v : T) (cur cur2 : TaskId) (h1 : s.complete = false)
    (h2 : s.dataLocked = false) (h3 : s.data = none) :
    Oneshot.Inner.send s v = some (.ok (), { s with data := some v }) ∧
    Oneshot.Inner.send Oneshot.Inner.new v = some (.ok (), Oneshot.afterSend v) ∧
    Oneshot.Inner.recv (Oneshot.afterSend v) cur
      = some (.ok .notReady, { Oneshot.afterSend v with rxTask := some cur }) ∧
    Oneshot.Inner.dropTx { Oneshot.afterSend v with rxTask := some cur }
      = ({ Oneshot.afterSend v with complete := true, rxTask := none }, some cur) ∧
    Oneshot.Inner.recv { Oneshot.afterSend v with complete := true, rxTask := none } cur2
      = some (.ok (.ready v),
        { Oneshot.afterSend v with complete := true, rxTask := none, data := none }) := by
  obtain ⟨c, dl, d, rl, rt, tl, tt⟩ := s
  simp only at h1 h2 h3
  subst h1; subst h2; subst h3
  refine ⟨?_, rfl, rfl, rfl, rfl⟩
  simp [Oneshot.Inner.send]

/-- Witness for C4: the end-to-end scenario of the specification with the
value `42`. -/
theorem send_frame_then_poll_scenario_witness :
    Oneshot.Inner.send (Oneshot.Inner.new : Oneshot.Inner Nat) 42
      = some (.ok (), Oneshot.afterSend 42) ∧
    Oneshot.Inner.recv (Oneshot.afterSend 42) 0
      = some (.ok .notReady, { Oneshot.afterSend 42 with rxTask := some 0 }) ∧
    Oneshot.Inner.recv { Oneshot.afterSend (42 : Nat) with complete := true, rxTask := none } 1
      = some (.ok (.ready 42),
        { Oneshot.afterSend 42 with complete := true, rxTask := none, data := none }) := by
  obtain ⟨-, h2, h3, -, h5⟩ :=
    send_frame_then_poll_scenario (Oneshot.Inner.new : Oneshot.Inner Nat) 42 0 1 rfl rfl rfl
  exact ⟨h2, h3, h5⟩

/-- Claim C7: send `v`, drop the producer, poll: the consumer gets
`Ready v` exactly once — the payload slot is cleared by the first
receive, and a second poll does not panic (it returns a value, namely the
`Canceled` error) instead of repeating the value. -/
theorem recv_ready_exactly_once {T : Type} (v : T) (cur cur2 : TaskId) :
    Oneshot.Inner.send Oneshot.Inner.new v = some (.ok (), Oneshot.afterSend v) ∧
    Oneshot.Inner.dropTx (Oneshot.afterSend v)
      = ({ Oneshot.afterSend v with complete := true }, none) ∧
    Oneshot.Inner.recv { Oneshot.afterSend v with complete := true } cur
      = some (.ok (.ready v), { Oneshot.afterSend v with complete := true, data := none }) ∧
    Oneshot.Inner.recv
        ({ Oneshot.afterSend v with complete := true, data := none } : Oneshot.Inner T) cur2
      = some (.error .canceled,
        ({ Oneshot.afterSend v with complete := true, data := none } : Oneshot.Inner T)) :=
  ⟨rfl, rfl, rfl, rfl⟩

/-- Claim C5: with a resolvable weak reference (live sender, live
consumer) `swap v` replaces the current value with `v`, returns `Ok` of
the previous value, and clears and wakes the parked task; `swap a` then
`swap b` then one consumer poll yields `Ready (Some b)` with `a` handed
back to the second writer; and with the consumer dropped `swap v` fails,
returning `v` inside the error. -/
theorem slot_swap_last_value_wins {T : Type} (w w2 : Slot.World T)
    (sl : Bool) (v a b : T) (cur : TaskId) (h : w.rxAlive = true)
    (h2 : w2.rxAlive = false) :
    Slot.Sender.swap w true v
      = (.ok w.inner.value,
        { w with inner := { value := some v, task := none } }, w.inner.task) ∧
    Slot.Sender.swap w2 sl v = (.error ⟨v⟩, w2, none) ∧
    Slot.Sender.swap (Slot.channel T).1 true a = (.ok none, Slot.afterSwap a, none) ∧
    Slot.Sender.swap (Slot.afterSwap a) true b
      = (.ok (some a), Slot.afterSwap b, none) ∧
    Slot.Receiver.poll (Slot.afterSwap b) cur
      = (.ready (some b),
        ({ inner := { value := none, task := none }, weakCount := 1
           rxAlive := true } : Slot.World T)) := by
  refine ⟨?_, ?_, rfl, rfl, rfl⟩
  · simp [Slot.Sender.swap, h]
  · cases sl <;> simp [Slot.Sender.swap, h2]

/-- Witness for C5: the two-swap scenario on a fresh channel of naturals,
with a consumer-dropped world for the failure conjunct. -/
theorem slot_swap_last_value_wins_witness :
    Slot.Sender.swap (Slot.channel Nat).1 true 10 = (.ok none, Slot.afterSwap 10, none) ∧
    Slot.Sender.swap (Slot.afterSwap 10) true 20
      = (.ok (some 10), Slot.afterSwap 20, none) ∧
    Slot.Sender.swap
      ({ inner := { value := none, task := none }, weakCount := 1
         rxAlive := false } : Slot.World Nat) true 30
      = (.error ⟨30⟩,
        { inner := { value := none, task := none }, weakCount := 1, rxAlive := false },
        none) := by
  obtain ⟨-, hfail, hA, hB, -⟩ :=
    slot_swap_last_value_wins (Slot.channel Nat).1
      { inner := { value := none, task := none }, weakCount := 1, rxAlive := false }
      true 30 10 20 0 rfl rfl
  exact ⟨hA, hB, hfail⟩

/-- Claim C6: the consumer poll returns `Ready None` exactly when no
value is present and the weak count is zero; with no value and a nonzero
weak count it parks the current task and returns not-ready; with a value
present it returns it; and the end-of-stream answer is stable under
repeated polls (the state is unchanged). -/
theorem slot_poll_end_of_stream_iff {T : Type} (w : Slot.World T)
    (cur cur2 : TaskId) :
    ((Slot.Receiver.poll w cur).1 = .ready none ↔
      w.inner.value = none ∧ w.weakCount = 0) ∧
    (w.inner.value = none → w.weakCount ≠ 0 →
      Slot.Receiver.poll w cur
        = (.notReady, { w with inner := { value := none, task := some cur } })) ∧
    (∀ v, w.inner.value = some v →
      Slot.Receiver.poll w cur
        = (.ready (some v), { w with inner := { w.inner with value := none } })) ∧
    (w.inner.value = none → w.weakCount = 0 →
      Slot.Receiver.poll w cur = (.ready none, w) ∧
      Slot.Receiver.poll ((Slot.Receiver.poll w cur).2) cur2 = (.ready none, w)) := by
  obtain ⟨⟨val, tsk⟩, wc, ra⟩ := w
  cases val <;> cases wc <;>
    simp [Slot.Receiver.poll]

/-- Witness for C6: with every sender gone and no pending value, two
consecutive polls both answer end of stream. -/
theorem slot_poll_end_of_stream_witness :
    Slot.Receiver.poll
      ({ inner := { value := none, task := none }, weakCount := 0
         rxAlive := true } : Slot.World Nat) 0
      = (.ready none,
        { inner := { value := none, task := none }, weakCount := 0, rxAlive := true }) :=
  ((slot_poll_end_of_stream_iff
    ({ inner := { value := none, task := none }, weakCount := 0
       rxAlive := true } : Slot.World Nat) 0 1).2.2.2 rfl rfl).1

/-- Claim C10: after `close` the sender's weak reference is dangling
(`close` always returns the liveness flag `false`), so every later `swap`
on that handle fails with the value handed back even while the consumer
is alive; and a second `close` — as performed by `drop` — is a no-op:
world unchanged, nothing woken. -/
theorem slot_swap_after_close_fails {T : Type} (w : Slot.World T)
    (sl : Bool) (v : T) :
    Slot.Sender.swap w false v = (.error ⟨v⟩, w, none) ∧
    (Slot.Sender.close w sl).2.1 = false ∧
    Slot.Sender.close w false = (w, false, none) ∧
    Slot.Sender.drop w false = (w, false, none) := by
  refine ⟨?_, ?_, ?_, ?_⟩
  · simp [Slot.Sender.swap]
  · cases sl <;> simp [Slot.Sender.close]
  · simp [Slot.Sender.close]
  · simp [Slot.Sender.drop, Slot.Sender.close]

/-- Claim C8: `SpawnHandle::poll` delegates to the oneshot receive:
`Ready(Ok t)` resolves to `t`, `Ready(Err e)` surfaces `e`, not-ready
passes through, and the `Canceled` error (producer vanished without
completing and without forget) panics — modelled as `none` — rather than
returning a typed error. -/
theorem spawn_handle_poll_delegation {T E : Type}
    (s : Spawn.ExecuteInner (Except E T)) (cur : TaskId) :
    (∀ i, Oneshot.Inner.recv s.inner cur = some (.error .canceled, i) →
      Spawn.SpawnHandle.poll s cur = none) ∧
    (∀ t i, Oneshot.Inner.recv s.inner cur = some (.ok (.ready (.ok t)), i) →
      Spawn.SpawnHandle.poll s cur = some (.ok (.ready t), { s with inner := i })) ∧
    (∀ e i, Oneshot.Inner.recv s.inner cur = some (.ok (.ready (.error e)), i) →
      Spawn.SpawnHandle.poll s cur = some (.error e, { s with inner := i })) ∧
    (∀ i, Oneshot.Inner.recv s.inner cur = some (.ok .notReady, i) →
      Spawn.SpawnHandle.poll s cur = some (.ok .notReady, { s with inner := i })) := by
  refine ⟨fun i h => ?_, fun t i h => ?_, fun e i h => ?_, fun i h => ?_⟩ <;>
    simp [Spawn.SpawnHandle.poll, h]

/-- Witness for C8: a handle whose producer side was dropped without
sending (complete set, payload empty, no forget) panics when polled. -/
theorem spawn_handle_poll_delegation_witness :
    Spawn.SpawnHandle.poll
      (⟨⟨true, false, none, false, none, false, none⟩, true⟩ :
        Spawn.ExecuteInner (Except Unit Nat)) 0 = none :=
  (spawn_handle_poll_delegation
    (⟨⟨true, false, none, false, none, false, none⟩, true⟩ :
      Spawn.ExecuteInner (Except Unit Nat)) 0).1
    ⟨true, false, none, false, none, false, none⟩ rfl

/-- Claim C9: for every interleaving of the atomic steps of one consumer
`recv` against one producer `drop_tx` (sequential consistency makes each
execution such an interleaving), whether or not a previous poll had
already registered the consumer's task, if the consumer's poll returns
not-ready then the producer's completion has woken the consumer's task:
no missed wakeup, no permanent stall. -/
theorem oneshot_no_missed_wakeup :
    ∀ t0 b1 b2 b3 b4 b5 b6 b7 : Bool,
      (Race.run (Race.raceInit t0) [b1, b2, b3, b4, b5, b6, b7]).cres = some false →
      (Race.run (Race.raceInit t0) [b1, b2, b3, b4, b5, b6, b7]).notified = true := by
  decide

/-- Witness for C9: the schedule that lets the consumer park and return
not-ready before the producer runs ends with the consumer woken. -/
theorem oneshot_no_missed_wakeup_witness :
    (Race.run (Race.raceInit false)
      [false, false, false, false, true, true, true]).cres = some false ∧
    (Race.run (Race.raceInit false)
      [false, false, false, false, true, true, true]).notified = true :=
  ⟨by decide,
    oneshot_no_missed_wakeup false false false false false true true true (by decide)⟩

/-- Claim C1, behavior of the code at the failing input: after `forget()`
(which stores `keep_running := false`) and dropping the handle,
`Execute::poll` short-circuits — it returns `Ready` without polling the
wrapped computation — while after dropping the handle without `forget()`
(`keep_running` still `true`) it goes on polling the wrapped computation.
This is the reverse of the specified behavior and of the adapter's own
documentation, which says `forget` lets the computation keep running. -/
theorem execute_poll_short_circuits_exactly_after_forget :
    Spawn.forgottenDroppedTx.keep_running = false ∧
    (Spawn.Execute.poll Spawn.countingFuture 0 Spawn.forgottenDroppedTx 7).map
      (fun r => r.futurePolled) = some false ∧
    (Spawn.Execute.poll Spawn.countingFuture 0 Spawn.forgottenDroppedTx 7).map
      (fun r => r.result) = some (.ready ()) ∧
    Spawn.keptDroppedTx.keep_running = true ∧
    (Spawn.Execute.poll Spawn.countingFuture 0 Spawn.keptDroppedTx 7).map
      (fun r => r.futurePolled) = some true :=
  ⟨rfl, rfl, rfl, rfl, rfl⟩

end FuturesSpec
